import Mathlib

/-!
Shallow embedding of the build-and-deploy orchestration controller of
kagenti (src/kagenti/ui/lib/build_utils.py), covering:

  * trigger_and_monitor_build        (lines 455-667)
  * trigger_and_monitor_deployment_from_image (lines 669-845)
  * parse_image_url                  (lines 1314-1328)

External effects (Kubernetes API calls, Streamlit observer messages) are
made explicit: the cluster answers come from an input stream, and the
function result records the Python return value, the ordered trace of
cluster operations, the ordered trace of observer events, and the final
values of the loop counters and phase variables.
-/

set_option maxRecDepth 10000

namespace Kagenti

/-- Result of a Python function that normally returns a bool but may raise
an unhandled NameError (UnboundLocalError is a subclass of NameError). -/
inductive PyResult where
  | ret (b : Bool)
  | nameError
deriving DecidableEq, Repr

/-- One Kubernetes API call issued by the orchestrator.  The source only
ever calls create_namespaced_custom_object and
get_namespaced_custom_object; update, patch and delete constructors are
included so that their absence from every trace is a meaningful theorem. -/
inductive ClusterOp where
  | create (ns : String)
  | get (ns : String) (name : String)
  | update (ns : String) (name : String)
  | patch (ns : String) (name : String)
  | delete (ns : String) (name : String)
deriving DecidableEq, Repr

/-- One message sent to the Streamlit observer (st_object or the
status_placeholder derived from it). -/
inductive UiEvent where
  | error (msg : String)
  | success (msg : String)
  | info (msg : String)
  | warning (msg : String)
  | spinner (msg : String)
deriving DecidableEq, Repr

/-- The buildStatus sub-dictionary of the custom object status. -/
structure BuildStatusData where
  phase : Option String
  message : Option String
deriving DecidableEq, Repr

/-- The deploymentStatus sub-dictionary of the custom object status. -/
structure DeploymentStatusData where
  phase : Option String
  deploymentMessage : Option String
deriving DecidableEq, Repr

/-- The status dictionary of the custom object. -/
structure ObjStatus where
  buildStatus : Option BuildStatusData
  deploymentStatus : Option DeploymentStatusData
deriving DecidableEq, Repr

/-- A custom object as returned by get_namespaced_custom_object; every
field the orchestrator reads is present, each level optional exactly as
the chained dict.get calls allow. -/
structure K8sObject where
  status : Option ObjStatus
deriving DecidableEq, Repr

/-- build_obj.get("status", \x7b\x7d).get("buildStatus", \x7b\x7d).get("phase", "Unknown") -/
def getBuildPhase (o : K8sObject) : String :=
  (((o.status.bind fun s => s.buildStatus).bind fun b => b.phase).getD "Unknown")

/-- build_obj.get("status", \x7b\x7d).get("buildStatus", \x7b\x7d).get("message", "") -/
def getBuildMessage (o : K8sObject) : String :=
  (((o.status.bind fun s => s.buildStatus).bind fun b => b.message).getD "")

/-- build_obj.get("status", \x7b\x7d).get("deploymentStatus", \x7b\x7d).get("phase", "Unknown") -/
def getDeployPhase (o : K8sObject) : String :=
  (((o.status.bind fun s => s.deploymentStatus).bind fun d => d.phase).getD "Unknown")

/-- build_obj.get("status", \x7b\x7d).get("deploymentStatus", \x7b\x7d).get("deploymentMessage", "") -/
def getDeployMessage (o : K8sObject) : String :=
  (((o.status.bind fun s => s.deploymentStatus).bind fun d => d.deploymentMessage).getD "")

/-- Result of one get_namespaced_custom_object call: a custom object, a
kubernetes ApiException (carrying its HTTP status, its reason and its str
rendering), or any other exception (carrying its str rendering). -/
inductive GetResult where
  | ok (obj : K8sObject)
  | apiErr (status : Nat) (reason : String) (text : String)
  | exn (text : String)
deriving DecidableEq, Repr

/-- Result of the single create_namespaced_custom_object call. -/
inductive CreateResult where
  | ok
  | apiErr (status : Nat) (reason : String) (text : String)
  | exn (text : String)
deriving DecidableEq, Repr

/-- An opaque constructed resource body.  The construction helpers
(_construct_agent_resource_body and _construct_tool_resource_body) return
either a non-empty manifest dictionary (truthy) or None; their internals
are out of scope for the orchestration claims, so a body is abstract. -/
structure ResourceBody where
  manifest : String
deriving DecidableEq, Repr

/-- Python str.lower() (character-wise lower-casing). -/
def pyLower (s : String) : String :=
  String.mk (s.data.map Char.toLower)

/-- Python str.capitalize(): first character upper-cased, the rest
lower-cased. -/
def pyCapitalize (s : String) : String :=
  match s.data with
  | [] => ""
  | c :: cs => String.mk (c.toUpper :: cs.map Char.toLower)

/-- Environment of one trigger_and_monitor_build call: the arguments the
orchestration logic reads, plus the responses of the external cluster.
sanitizedName is the value of sanitize_for_k8s_name(resource_name_suggestion).
Modelled from the spec: sanitize_for_k8s_name lives in lib/utils.py, which
is not included here; the spec (section 4.1) treats the name as
pre-sanitized input, so its result is a field of the environment.
agentBody and toolBody are the results of the two construction helpers
(None modelled as none).  gets enumerates the cluster answers to the
successive get calls on this resource, in order. -/
structure BuildEnv where
  hasCustomObjApi : Bool
  hasCoreV1Api : Bool
  buildNamespace : String
  sanitizedName : String
  resourceType : String
  agentBody : Option ResourceBody
  toolBody : Option ResourceBody
  createResult : CreateResult
  gets : Nat → GetResult

/-- Observer text when the CustomObjectsApi client is missing
(lines 456-458 and 702-704). -/
def msgNoCustomObjApi : String :=
  "Kubernetes CustomObjectsApi client not initialized. Cannot trigger build."

/-- Observer text when the CoreV1Api client is missing (lines 461-463
and 707-709). -/
def msgNoCoreV1Api : String :=
  "Kubernetes CoreV1Api client not initialized. Cannot fetch secrets for build."

/-- Observer text when the sanitized name is empty (lines 468 and 714). -/
def msgInvalidName : String :=
  "Invalid resource name after sanitization. Cannot proceed."

/-- Observer text when the resource body could not be constructed
(lines 503-505). -/
def constructBuildBodyFailMsg (name : String) : String :=
  s!"Failed to construct build resource body for \x27{name}\x27. Check previous errors."

/-- Observer text when the resource body could not be constructed in
trigger_and_monitor_deployment_from_image (lines 749-751). -/
def constructBodyFailMsg (name : String) : String :=
  s!"Failed to construct resource body for \x27{name}\x27. Check previous errors."

/-- The resource description string passed to _handle_kube_api_exception
(lines 527 and 773). -/
def resourceDescOf (rtype name : String) : String :=
  s!"{pyCapitalize rtype} \x27{name}\x27"

/-- Observer text when the custom resource already exists.  Modelled from
the spec (sections 4.1 and 7): _handle_kube_api_exception lives in
lib/utils.py, which is not included here; submission must surface
AlreadyExists (HTTP 409) as a distinct non-retryable error. -/
def alreadyExistsMsg (resourceDesc : String) : String :=
  s!"{resourceDesc} already exists. Please choose a different name."

/-- Observer text for a non-409 ApiException raised by the create call.
Modelled from the spec (sections 4.1 and 7), as for alreadyExistsMsg. -/
def createApiErrMsg (action resourceDesc reason : String) : String :=
  s!"API error {action} {resourceDesc}: {reason}"

/-- Modelled from the spec: _handle_kube_api_exception lives in
lib/utils.py, which is not included here.  Per the spec (section 4.1 and
section 7) submission surfaces a distinct non-retryable error to the
caller, with AlreadyExists (HTTP 409) distinguished from other API
failures. -/
def handleKubeApiException (status : Nat) (reason : String)
    (resourceDesc : String) (action : String) : UiEvent :=
  if status = 409 then
    UiEvent.error (alreadyExistsMsg resourceDesc)
  else
    UiEvent.error (createApiErrMsg action resourceDesc reason)

/-- current_build_status in ["Succeeded", "Failed", "Error"] -/
def isTerminalBuild (s : String) : Bool :=
  s == "Succeeded" || s == "Failed" || s == "Error"

/-- final_deployment_phase in ["Ready", "Failed", "Error"] -/
def isTerminalDeploy (s : String) : Bool :=
  s == "Ready" || s == "Failed" || s == "Error"

/-- Observer text of the per-poll build status line (lines 566-568). -/
def buildStatusMsg (name status message deployPhase : String) : String :=
  s!"Build Status for \x27{name}\x27: **{status}**\nMessage: {message}\nDeployment Status: **{deployPhase}**"

/-- Observer text for a 404 during build polling (lines 574-576). -/
def buildNotFoundMsg (rtype name : String) : String :=
  s!"{pyCapitalize rtype}Build \x27{name}\x27 not found during polling."

/-- Observer text for a non-404 ApiException during build polling
(lines 578-580). -/
def buildApiErrMsg (name reason : String) : String :=
  s!"API error polling build status for \x27{name}\x27: {reason}"

/-- Observer text for any other exception during build polling
(lines 584-586). -/
def buildUnexpectedMsg (name text : String) : String :=
  s!"Unexpected error polling build status for \x27{name}\x27: {text}"

/-- Observer text of the per-poll deployment status line (lines 630-633
and 814-817; the text is identical in both deploy loops). -/
def deployStatusMsg (name phase message : String) : String :=
  s!"Deployment Status for \x27{name}\x27: **{phase}**\nMessage: {message}"

/-- Observer text for any exception during deploy polling (lines 640-641
and 824-825). -/
def deployErrMsg (text : String) : String :=
  s!"Error checking deployment status: {text}"

/-- Observer text when the build polls are exhausted without a terminal
build phase (lines 594-596). -/
def buildTimeoutMsg (name : String) : String :=
  s!"Timeout waiting for build of \x27{name}\x27 to complete."

/-- Observer spinner text of the submission phase (lines 507-509). -/
def submitBuildSpinMsg (rtype name ns : String) : String :=
  s!"Submitting build for {rtype} \x27{name}\x27 in namespace \x27{ns}\x27..."

/-- Observer text after an accepted create call (lines 520-522 and
766-768). -/
def createSentMsg (rtype name ns : String) : String :=
  s!"{pyCapitalize rtype} \x27{name}\x27 creation request sent to namespace \x27{ns}\x27."

/-- Observer text for a non-ApiException raised by the create call
(lines 531-534). -/
def createUnexpectedBuildMsg (name text : String) : String :=
  s!"An unexpected error occurred creating build for \x27{name}\x27: {text}"

/-- Observer spinner text of the build wait phase (lines 540-542). -/
def waitBuildSpinMsg (rtype name ns : String) : String :=
  s!"Waiting for {rtype} \x27{name}\x27 in \x27{ns}\x27 to build and deploy..."

/-- Observer spinner text of the deploy wait phase (lines 605-607). -/
def deploySpinMsg (rtype name : String) : String :=
  s!"Build succeeded. Waiting for {rtype} \x27{name}\x27 to deploy..."

/-- Observer text of overall success (lines 646-648). -/
def builtDeployedMsg (rtype name ns : String) : String :=
  s!"{pyCapitalize rtype} \x27{name}\x27 built and deployed successfully in namespace \x27{ns}\x27!"

/-- Observer text of a terminal deploy failure (lines 651-653 and
835-837). -/
def deployFailedStatusMsg (rtype name phase : String) : String :=
  s!"{pyCapitalize rtype} \x27{name}\x27 deployment failed with status: {phase}. Check operator logs."

/-- Observer text of deploy poll exhaustion (lines 657-660 and 841-844). -/
def deployTimedOutMsg (rtype name : String) (maxR : Nat) (phase : String) : String :=
  s!"{pyCapitalize rtype} \x27{name}\x27 deployment timed out after {maxR} attempts. Last status: {phase}. Manual check might be needed."

/-- Observer text of a terminal non-Succeeded build phase (lines 664-666). -/
def buildFinishedStatusMsg (rtype name ns status : String) : String :=
  s!"{pyCapitalize rtype} build for \x27{name}\x27 in \x27{ns}\x27 finished with status: {status}. Check operator logs."

/-- Observer spinner text of the submission phase of
trigger_and_monitor_deployment_from_image (lines 753-755). -/
def submitDeploySpinMsg (rtype name ns : String) : String :=
  s!"Submitting deployment for {rtype} \x27{name}\x27 in namespace \x27{ns}\x27..."

/-- Observer text for a non-ApiException raised by the create call of
trigger_and_monitor_deployment_from_image (lines 777-781). -/
def createUnexpectedDeployMsg (name text : String) : String :=
  s!"An unexpected error occurred creating deployment for \x27{name}\x27: {text}"

/-- Observer spinner text of the deploy wait phase of
trigger_and_monitor_deployment_from_image (lines 789-791). -/
def waitDeploySpinMsg (rtype name : String) : String :=
  s!"Waiting for {rtype} \x27{name}\x27 to deploy..."

/-- Observer text of success of
trigger_and_monitor_deployment_from_image (lines 830-832). -/
def deployedOkMsg (rtype name ns : String) : String :=
  s!"{pyCapitalize rtype} \x27{name}\x27 deployed successfully in namespace \x27{ns}\x27!"

/-- Outcome of one run of the build polling while loop: the final
current_build_status, the final retries counter, and the traces it
produced. -/
structure BuildLoopOut where
  status : String
  retries : Nat
  ops : List ClusterOp
  events : List UiEvent
deriving Repr

/-- The build polling while loop of trigger_and_monitor_build
(lines 543-588).  fuel is max_retries minus the current retries counter,
so the loop condition retries < max_retries is the fuel pattern; the
terminal-status half of the condition is tested explicitly.  One get call
is issued per iteration; gets is indexed by the retries counter before
its increment.  Any ApiException other than 404, and any other exception,
behaves exactly as in the source: the observer is told, the status is set
to "Error" and the loop breaks. -/
def buildPollLoop (gets : Nat → GetResult) (ns name rtype : String) :
    Nat → Nat → String → BuildLoopOut
  | 0, retries, status => ⟨status, retries, [], []⟩
  | fuel + 1, retries, status =>
    if isTerminalBuild status then ⟨status, retries, [], []⟩
    else
      let r := retries + 1
      match gets retries with
      | GetResult.ok obj =>
        let s := getBuildPhase obj
        let m := getBuildMessage obj
        let d := getDeployPhase obj
        let ev := UiEvent.info (buildStatusMsg name s m d)
        if isTerminalBuild s then
          ⟨s, r, [ClusterOp.get ns name], [ev]⟩
        else
          let rest := buildPollLoop gets ns name rtype fuel r s
          ⟨rest.status, rest.retries, ClusterOp.get ns name :: rest.ops,
            ev :: rest.events⟩
      | GetResult.apiErr st reason _text =>
        let ev :=
          if st = 404 then UiEvent.error (buildNotFoundMsg rtype name)
          else UiEvent.error (buildApiErrMsg name reason)
        ⟨"Error", r, [ClusterOp.get ns name], [ev]⟩
      | GetResult.exn text =>
        ⟨"Error", r, [ClusterOp.get ns name],
          [UiEvent.error (buildUnexpectedMsg name text)]⟩

/-- Outcome of one run of a deploy polling while loop. -/
structure DeployLoopOut where
  phase : String
  retries : Nat
  ops : List ClusterOp
  events : List UiEvent
deriving Repr

/-- The deploy polling while loop, shared verbatim between
trigger_and_monitor_build (lines 608-642) and
trigger_and_monitor_deployment_from_image (lines 792-826).  Every
exception, ApiException (404 included) or not, is caught by the generic
handler: a warning is sent, the attempt is counted, and polling
continues with the phase unchanged. -/
def deployPollLoop (gets : Nat → GetResult) (ns name : String) :
    Nat → Nat → String → DeployLoopOut
  | 0, retries, phase => ⟨phase, retries, [], []⟩
  | fuel + 1, retries, phase =>
    if isTerminalDeploy phase then ⟨phase, retries, [], []⟩
    else
      let r := retries + 1
      match gets retries with
      | GetResult.ok obj =>
        let p := getDeployPhase obj
        let m := getDeployMessage obj
        let ev := UiEvent.info (deployStatusMsg name p m)
        if isTerminalDeploy p then
          ⟨p, r, [ClusterOp.get ns name], [ev]⟩
        else
          let rest := deployPollLoop gets ns name fuel r p
          ⟨rest.phase, rest.retries, ClusterOp.get ns name :: rest.ops,
            ev :: rest.events⟩
      | GetResult.apiErr _st _reason text =>
        let rest := deployPollLoop gets ns name fuel r phase
        ⟨rest.phase, rest.retries, ClusterOp.get ns name :: rest.ops,
          UiEvent.warning (deployErrMsg text) :: rest.events⟩
      | GetResult.exn text =>
        let rest := deployPollLoop gets ns name fuel r phase
        ⟨rest.phase, rest.retries, ClusterOp.get ns name :: rest.ops,
          UiEvent.warning (deployErrMsg text) :: rest.events⟩

/-- Full observable outcome of one orchestration call. -/
structure RunOut where
  result : PyResult
  ops : List ClusterOp
  events : List UiEvent
  buildPolls : Nat
  deployPolls : Nat
  finalBuildStatus : Option String
  finalDeployPhase : Option String
deriving Repr

/-- max_retries of the build loop (line 538). -/
def maxBuildRetries : Nat := 120

/-- max_deployment_retries of both deploy loops (lines 602 and 786). -/
def maxDeploymentRetries : Nat := 120

/-- The build polling loop of trigger_and_monitor_build as it is entered
at line 543: max_retries = 120, retries = 0, current_build_status =
"Pending". -/
def buildLoopOf (env : BuildEnv) : BuildLoopOut :=
  buildPollLoop env.gets env.buildNamespace env.sanitizedName
    env.resourceType maxBuildRetries 0 "Pending"

/-- The deploy polling loop of trigger_and_monitor_build as it is
entered at line 608: it continues reading the same resource, so its get
stream starts where the build loop stopped. -/
def deployLoopOf (env : BuildEnv) : DeployLoopOut :=
  deployPollLoop (fun i => env.gets ((buildLoopOf env).retries + i))
    env.buildNamespace env.sanitizedName maxDeploymentRetries 0 "Unknown"

/-- Monitoring part of trigger_and_monitor_build (lines 536-667): the
build polling loop, the timeout check, and on build success the deploy
polling loop with its final dispatch.  Runs after the create call has
succeeded; preEvents are the observer events already emitted by the
submission part. -/
def monitorBuildAndDeploy (env : BuildEnv) (preEvents : List UiEvent) : RunOut :=
  let name := env.sanitizedName
  let bl := buildLoopOf env
  let baseOps := ClusterOp.create env.buildNamespace :: bl.ops
  let baseEvents := preEvents ++ bl.events
  if maxBuildRetries ≤ bl.retries ∧ ¬ isTerminalBuild bl.status then
    ⟨PyResult.ret false, baseOps,
      baseEvents ++ [UiEvent.error (buildTimeoutMsg name)],
      bl.retries, 0, some bl.status, none⟩
  else if bl.status = "Succeeded" then
    let deploySpin := UiEvent.spinner (deploySpinMsg env.resourceType name)
    let dl := deployLoopOf env
    let allOps := baseOps ++ dl.ops
    let allEvents := baseEvents ++ deploySpin :: dl.events
    if dl.phase = "Ready" then
      ⟨PyResult.ret true, allOps,
        allEvents ++
          [UiEvent.success (builtDeployedMsg env.resourceType name env.buildNamespace)],
        bl.retries, dl.retries, some bl.status, some dl.phase⟩
    else if dl.phase = "Failed" ∨ dl.phase = "Error" then
      ⟨PyResult.ret false, allOps,
        allEvents ++
          [UiEvent.error (deployFailedStatusMsg env.resourceType name dl.phase)],
        bl.retries, dl.retries, some bl.status, some dl.phase⟩
    else
      ⟨PyResult.ret false, allOps,
        allEvents ++
          [UiEvent.warning (deployTimedOutMsg env.resourceType name maxDeploymentRetries dl.phase)],
        bl.retries, dl.retries, some bl.status, some dl.phase⟩
  else
    ⟨PyResult.ret false, baseOps,
      baseEvents ++
        [UiEvent.error (buildFinishedStatusMsg env.resourceType name env.buildNamespace bl.status)],
      bl.retries, 0, some bl.status, none⟩

/-- trigger_and_monitor_build (lines 455-667).  The local variable
build_cr_body is assigned only in the agent and tool branches; reading it
in any other case raises an unhandled NameError, modelled by the outer
Option being none. -/
def trigger_and_monitor_build (env : BuildEnv) : RunOut :=
  if !env.hasCustomObjApi then
    ⟨PyResult.ret false, [], [UiEvent.error msgNoCustomObjApi], 0, 0, none, none⟩
  else if !env.hasCoreV1Api then
    ⟨PyResult.ret false, [], [UiEvent.error msgNoCoreV1Api], 0, 0, none, none⟩
  else
    let name := env.sanitizedName
    if name = "" then
      ⟨PyResult.ret false, [], [UiEvent.error msgInvalidName], 0, 0, none, none⟩
    else
      let bodyVar : Option (Option ResourceBody) :=
        if pyLower env.resourceType = "agent" then some env.agentBody
        else if pyLower env.resourceType = "tool" then some env.toolBody
        else none
      match bodyVar with
      | none => ⟨PyResult.nameError, [], [], 0, 0, none, none⟩
      | some none =>
        ⟨PyResult.ret false, [],
          [UiEvent.error (constructBuildBodyFailMsg name)], 0, 0, none, none⟩
      | some (some _body) =>
        let submitSpin := UiEvent.spinner
          (submitBuildSpinMsg env.resourceType name env.buildNamespace)
        match env.createResult with
        | CreateResult.apiErr st reason _text =>
          ⟨PyResult.ret false, [ClusterOp.create env.buildNamespace],
            [submitSpin,
              handleKubeApiException st reason
                (resourceDescOf env.resourceType name) "creating"],
            0, 0, none, none⟩
        | CreateResult.exn text =>
          ⟨PyResult.ret false, [ClusterOp.create env.buildNamespace],
            [submitSpin,
              UiEvent.error (createUnexpectedBuildMsg name text)],
            0, 0, none, none⟩
        | CreateResult.ok =>
          let createdMsg := UiEvent.success
            (createSentMsg env.resourceType name env.buildNamespace)
          let waitSpin := UiEvent.spinner
            (waitBuildSpinMsg env.resourceType name env.buildNamespace)
          monitorBuildAndDeploy env [submitSpin, createdMsg, waitSpin]

/-- Environment of one trigger_and_monitor_deployment_from_image call,
shaped like BuildEnv (this function has no repo_branch or subfolder and
uses deployment_namespace, but reads the same external answers). -/
structure DeployEnv where
  hasCustomObjApi : Bool
  hasCoreV1Api : Bool
  deploymentNamespace : String
  sanitizedName : String
  resourceType : String
  agentBody : Option ResourceBody
  toolBody : Option ResourceBody
  createResult : CreateResult
  gets : Nat → GetResult

/-- trigger_and_monitor_deployment_from_image (lines 669-845).  The same
unassigned-local hazard exists for cr_body; the deploy polling loop is
the identical text as the inner deploy loop of trigger_and_monitor_build. -/
def trigger_and_monitor_deployment_from_image (env : DeployEnv) : RunOut :=
  if !env.hasCustomObjApi then
    ⟨PyResult.ret false, [], [UiEvent.error msgNoCustomObjApi], 0, 0, none, none⟩
  else if !env.hasCoreV1Api then
    ⟨PyResult.ret false, [], [UiEvent.error msgNoCoreV1Api], 0, 0, none, none⟩
  else
    let name := env.sanitizedName
    if name = "" then
      ⟨PyResult.ret false, [], [UiEvent.error msgInvalidName], 0, 0, none, none⟩
    else
      let bodyVar : Option (Option ResourceBody) :=
        if pyLower env.resourceType = "agent" then some env.agentBody
        else if pyLower env.resourceType = "tool" then some env.toolBody
        else none
      match bodyVar with
      | none => ⟨PyResult.nameError, [], [], 0, 0, none, none⟩
      | some none =>
        ⟨PyResult.ret false, [],
          [UiEvent.error (constructBodyFailMsg name)], 0, 0, none, none⟩
      | some (some _body) =>
        let submitSpin := UiEvent.spinner
          (submitDeploySpinMsg env.resourceType name env.deploymentNamespace)
        match env.createResult with
        | CreateResult.apiErr st reason _text =>
          ⟨PyResult.ret false, [ClusterOp.create env.deploymentNamespace],
            [submitSpin,
              handleKubeApiException st reason
                (resourceDescOf env.resourceType name) "creating"],
            0, 0, none, none⟩
        | CreateResult.exn text =>
          ⟨PyResult.ret false, [ClusterOp.create env.deploymentNamespace],
            [submitSpin,
              UiEvent.error (createUnexpectedDeployMsg name text)],
            0, 0, none, none⟩
        | CreateResult.ok =>
          let createdMsg := UiEvent.success
            (createSentMsg env.resourceType name env.deploymentNamespace)
          let waitSpin := UiEvent.spinner
            (waitDeploySpinMsg env.resourceType name)
          let dl := deployPollLoop env.gets env.deploymentNamespace name
            maxDeploymentRetries 0 "Unknown"
          let allOps := ClusterOp.create env.deploymentNamespace :: dl.ops
          let allEvents := submitSpin :: createdMsg :: waitSpin :: dl.events
          if dl.phase = "Ready" then
            ⟨PyResult.ret true, allOps,
              allEvents ++
                [UiEvent.success (deployedOkMsg env.resourceType name env.deploymentNamespace)],
              0, dl.retries, none, some dl.phase⟩
          else if dl.phase = "Failed" ∨ dl.phase = "Error" then
            ⟨PyResult.ret false, allOps,
              allEvents ++
                [UiEvent.error (deployFailedStatusMsg env.resourceType name dl.phase)],
              0, dl.retries, none, some dl.phase⟩
          else
            ⟨PyResult.ret false, allOps,
              allEvents ++
                [UiEvent.warning (deployTimedOutMsg env.resourceType name maxDeploymentRetries dl.phase)],
              0, dl.retries, none, some dl.phase⟩

/-- Recognizer of get operations in a cluster trace. -/
def isGet : ClusterOp → Bool
  | ClusterOp.get _ _ => true
  | _ => false

/-- Recognizer of create operations in a cluster trace. -/
def isCreate : ClusterOp → Bool
  | ClusterOp.create _ => true
  | _ => false

/-- A cluster answer that the build loop treats as one more wait: a
successful read whose build phase is not terminal. -/
def pollOkNonTerminal (g : GetResult) : Bool :=
  match g with
  | GetResult.ok o => !(isTerminalBuild (getBuildPhase o))
  | _ => false

/-- The submission part of trigger_and_monitor_build succeeds: both
clients supplied, non-empty sanitized name, a constructed body for the
agent or tool branch, and an accepted create call. -/
def submissionOk (env : BuildEnv) : Prop :=
  env.hasCustomObjApi = true ∧ env.hasCoreV1Api = true ∧
  env.sanitizedName ≠ "" ∧
  ((pyLower env.resourceType = "agent" ∧ env.agentBody.isSome) ∨
    (pyLower env.resourceType = "tool" ∧ env.toolBody.isSome)) ∧
  env.createResult = CreateResult.ok

instance (env : BuildEnv) : Decidable (submissionOk env) := by
  unfold submissionOk
  infer_instance

/-- Auxiliary of splitOnChar: the first separator-free segment of the
list and the remaining segments. -/
def splitOnCharAux (c : Char) : List Char → List Char × List (List Char)
  | [] => ([], [])
  | a :: rest =>
    let r := splitOnCharAux c rest
    if a = c then ([], r.1 :: r.2) else (a :: r.1, r.2)

/-- Python str.split(c) on a character list: always at least one
segment, empty segments preserved. -/
def splitOnChar (c : Char) (l : List Char) : List (List Char) :=
  (splitOnCharAux c l).1 :: (splitOnCharAux c l).2

/-- Python c.join(segments) on character lists. -/
def intercalateChar (c : Char) : List (List Char) → List Char
  | [] => []
  | [s] => s
  | s :: t :: rest => s ++ c :: intercalateChar c (t :: rest)

/-- Python str.strip(c) on a character list: removes every leading and
trailing occurrence of c. -/
def pyStrip (c : Char) (l : List Char) : List Char :=
  (((l.dropWhile fun a => a = c).reverse.dropWhile fun a => a = c)).reverse

/-- Python url.rsplit(sep, 1) on a character list that contains sep:
everything strictly before the last sep, and everything strictly after
it. -/
def rsplitOnce (sep : Char) (l : List Char) : List Char × List Char :=
  let r := l.reverse
  (((r.dropWhile fun a => a ≠ sep).drop 1).reverse,
    (r.takeWhile fun a => a ≠ sep).reverse)

/-- parse_image_url (lines 1314-1328), on the character list of the url.
ValueError is modelled as Except.error carrying the message. -/
def parse_image_url (url : List Char) :
    Except String (List Char × List Char × List Char) :=
  if ':' ∈ url then
    let bt := rsplitOnce ':' url
    let parts := splitOnChar '/' (pyStrip '/' bt.1)
    if parts.length < 2 then
      Except.error "URL must contain at least a repo and image name"
    else
      Except.ok (intercalateChar '/' parts.dropLast, parts.getLastD [], bt.2)
  else
    Except.error "URL must contain a tag (e.g., :latest)"

/-- A cluster object whose buildStatus.phase and deploymentStatus.phase
are the given strings, with empty messages. -/
def mkObj (bp dp : String) : K8sObject :=
  ⟨some ⟨some ⟨some bp, some ""⟩, some ⟨some dp, some ""⟩⟩⟩

/-- Baseline concrete environment: both clients supplied, tool branch
with a constructed body, accepted create call, build phase stuck at
Running. -/
def baseEnv : BuildEnv :=
  { hasCustomObjApi := true
    hasCoreV1Api := true
    buildNamespace := "team1"
    sanitizedName := "weather-tool"
    resourceType := "tool"
    agentBody := none
    toolBody := some ⟨"manifest"⟩
    createResult := CreateResult.ok
    gets := fun _ => GetResult.ok (mkObj "Running" "Unknown") }

/-- The end-to-end scenario of the spec: build phases
Pending, Running, Running, Succeeded, then deploy phases Pending, Ready. -/
def scenarioEnv : BuildEnv :=
  { baseEnv with
    gets := fun i =>
      match i with
      | 0 => GetResult.ok (mkObj "Pending" "Unknown")
      | 1 => GetResult.ok (mkObj "Running" "Unknown")
      | 2 => GetResult.ok (mkObj "Running" "Unknown")
      | 3 => GetResult.ok (mkObj "Succeeded" "Pending")
      | 4 => GetResult.ok (mkObj "Succeeded" "Pending")
      | _ => GetResult.ok (mkObj "Succeeded" "Ready") }

/-- Build phase sequence Pending, Failed. -/
def buildFailEnv : BuildEnv :=
  { baseEnv with
    gets := fun i =>
      match i with
      | 0 => GetResult.ok (mkObj "Pending" "Unknown")
      | _ => GetResult.ok (mkObj "Failed" "Unknown") }

/-- A transient (500) API error on the first build poll, with a build
that would report Succeeded and Ready from the second read on. -/
def transientErrEnv : BuildEnv :=
  { baseEnv with
    gets := fun i =>
      match i with
      | 0 => GetResult.apiErr 500 "Internal Server Error" "(500) Internal Server Error"
      | _ => GetResult.ok (mkObj "Succeeded" "Ready") }

/-- A 404 on the first build poll. -/
def notFoundEnv : BuildEnv :=
  { baseEnv with
    gets := fun i =>
      match i with
      | 0 => GetResult.apiErr 404 "Not Found" "(404) Not Found"
      | _ => GetResult.ok (mkObj "Succeeded" "Ready") }

/-- CustomObjectsApi client missing. -/
def noCustomApiEnv : BuildEnv := { baseEnv with hasCustomObjApi := false }

/-- CoreV1Api client missing. -/
def noCoreApiEnv : BuildEnv := { baseEnv with hasCoreV1Api := false }

/-- Tool branch taken but the construction helper returned None. -/
def noBodyEnv : BuildEnv := { baseEnv with toolBody := none }

/-- The create call answers 409: a resource of that name exists. -/
def conflictEnv : BuildEnv :=
  { baseEnv with createResult := CreateResult.apiErr 409 "Conflict" "(409) Conflict" }

/-- A resource type that is neither agent nor tool. -/
def operatorEnv : BuildEnv := { baseEnv with resourceType := "Operator" }

/-- Concrete environment for trigger_and_monitor_deployment_from_image:
a 404 on the first deploy poll, Ready from the second read on. -/
def imageDeployEnv : DeployEnv :=
  { hasCustomObjApi := true
    hasCoreV1Api := true
    deploymentNamespace := "team1"
    sanitizedName := "weather-tool"
    resourceType := "tool"
    agentBody := none
    toolBody := some ⟨"manifest"⟩
    createResult := CreateResult.ok
    gets := fun i =>
      match i with
      | 0 => GetResult.apiErr 404 "Not Found" "(404) Not Found"
      | _ => GetResult.ok (mkObj "Succeeded" "Ready") }

/-! Lemmas about the build polling loop. -/

theorem buildPollLoop_ops_all_get (gets : Nat → GetResult) (ns name rtype : String) :
    ∀ (fuel retries : Nat) (status : String),
      ∀ op ∈ (buildPollLoop gets ns name rtype fuel retries status).ops,
        op = ClusterOp.get ns name := by
  intro fuel
  induction fuel with
  | zero =>
    intro retries status op hop
    simp [buildPollLoop] at hop
  | succ n ih =>
    intro retries status op hop
    rw [buildPollLoop] at hop
    cases hterm : isTerminalBuild status with
    | true => simp [hterm] at hop
    | false =>
      rw [hterm] at hop
      simp only [Bool.false_eq_true, if_false] at hop
      cases hg : gets retries with
      | ok o =>
        rw [hg] at hop
        simp only at hop
        cases hph : isTerminalBuild (getBuildPhase o) with
        | true =>
          rw [hph] at hop
          simp at hop
          exact hop
        | false =>
          rw [hph] at hop
          simp only [Bool.false_eq_true, if_false, List.mem_cons] at hop
          rcases hop with h | h
          · exact h
          · exact ih (retries + 1) (getBuildPhase o) op h
      | apiErr st reason text =>
        rw [hg] at hop
        simp at hop
        exact hop
      | exn text =>
        rw [hg] at hop
        simp at hop
        exact hop

theorem buildPollLoop_retries_le (gets : Nat → GetResult) (ns name rtype : String) :
    ∀ (fuel retries : Nat) (status : String),
      (buildPollLoop gets ns name rtype fuel retries status).retries ≤ retries + fuel := by
  intro fuel
  induction fuel with
  | zero =>
    intro retries status
    simp [buildPollLoop]
  | succ n ih =>
    intro retries status
    rw [buildPollLoop]
    cases hterm : isTerminalBuild status with
    | true => simp
    | false =>
      simp only [Bool.false_eq_true, if_false]
      cases hg : gets retries with
      | ok o =>
        cases hph : isTerminalBuild (getBuildPhase o) with
        | true => simp [hph] <;> omega
        | false =>
          have := ih (retries + 1) (getBuildPhase o)
          simp only [hph, Bool.false_eq_true, if_false] at this ⊢
          simp <;> omega
      | apiErr st reason text => simp <;> omega
      | exn text => simp <;> omega

theorem buildPollLoop_all_nonterminal (gets : Nat → GetResult) (ns name rtype : String) :
    ∀ (fuel retries : Nat) (status : String),
      isTerminalBuild status = false →
      (∀ i, i < fuel → pollOkNonTerminal (gets (retries + i)) = true) →
      (buildPollLoop gets ns name rtype fuel retries status).retries = retries + fuel ∧
      isTerminalBuild (buildPollLoop gets ns name rtype fuel retries status).status = false ∧
      (buildPollLoop gets ns name rtype fuel retries status).ops.length = fuel := by
  intro fuel
  induction fuel with
  | zero =>
    intro retries status h0 _hall
    simp [buildPollLoop, h0]
  | succ n ih =>
    intro retries status h0 hall
    have hall0 := hall 0 (Nat.succ_pos n)
    rw [Nat.add_zero] at hall0
    rw [buildPollLoop, h0]
    simp only [Bool.false_eq_true, if_false]
    cases hg : gets retries with
    | ok o =>
      rw [hg] at hall0
      simp only [pollOkNonTerminal, Bool.not_eq_true'] at hall0
      have hshift : ∀ i, i < n → pollOkNonTerminal (gets (retries + 1 + i)) = true := by
        intro i hi
        have := hall (i + 1) (by omega)
        rwa [show retries + (i + 1) = retries + 1 + i from by omega] at this
      obtain ⟨h1, h2, h3⟩ := ih (retries + 1) (getBuildPhase o) hall0 hshift
      simp only [hall0, Bool.false_eq_true, if_false]
      refine ⟨by omega, by simpa using h2, by simp [h3]⟩
    | apiErr st reason text =>
      rw [hg] at hall0
      simp [pollOkNonTerminal] at hall0
    | exn text =>
      rw [hg] at hall0
      simp [pollOkNonTerminal] at hall0

theorem buildPollLoop_stops_terminal (gets : Nat → GetResult) (ns name rtype : String) :
    ∀ (fuel k retries : Nat) (status : String) (o : K8sObject),
      isTerminalBuild status = false →
      k < fuel →
      (∀ i, i < k → pollOkNonTerminal (gets (retries + i)) = true) →
      gets (retries + k) = GetResult.ok o →
      isTerminalBuild (getBuildPhase o) = true →
      (buildPollLoop gets ns name rtype fuel retries status).retries = retries + k + 1 ∧
      (buildPollLoop gets ns name rtype fuel retries status).status = getBuildPhase o := by
  intro fuel
  induction fuel with
  | zero =>
    intro k retries status o _h0 hk
    omega
  | succ n ih =>
    intro k retries status o h0 hk hprefix hgk hterm
    rw [buildPollLoop, h0]
    simp only [Bool.false_eq_true, if_false]
    cases k with
    | zero =>
      rw [Nat.add_zero] at hgk
      rw [hgk]
      simp [hterm]
    | succ j =>
      have hall0 := hprefix 0 (Nat.succ_pos j)
      rw [Nat.add_zero] at hall0
      cases hg : gets retries with
      | ok o0 =>
        rw [hg] at hall0
        simp only [pollOkNonTerminal, Bool.not_eq_true'] at hall0
        have hshift : ∀ i, i < j → pollOkNonTerminal (gets (retries + 1 + i)) = true := by
          intro i hi
          have := hprefix (i + 1) (by omega)
          rwa [show retries + (i + 1) = retries + 1 + i from by omega] at this
        have hgk' : gets (retries + 1 + j) = GetResult.ok o := by
          rwa [show retries + 1 + j = retries + (j + 1) from by omega]
        obtain ⟨h1, h2⟩ := ih j (retries + 1) (getBuildPhase o0) o hall0 (by omega) hshift hgk' hterm
        simp only [hall0, Bool.false_eq_true, if_false]
        constructor
        · omega
        · simpa using h2
      | apiErr st reason text =>
        rw [hg] at hall0
        simp [pollOkNonTerminal] at hall0
      | exn text =>
        rw [hg] at hall0
        simp [pollOkNonTerminal] at hall0

theorem buildPollLoop_stops_apiErr (gets : Nat → GetResult) (ns name rtype : String) :
    ∀ (fuel k retries : Nat) (status : String) (st : Nat) (reason text : String),
      isTerminalBuild status = false →
      k < fuel →
      (∀ i, i < k → pollOkNonTerminal (gets (retries + i)) = true) →
      gets (retries + k) = GetResult.apiErr st reason text →
      (buildPollLoop gets ns name rtype fuel retries status).retries = retries + k + 1 ∧
      (buildPollLoop gets ns name rtype fuel retries status).status = "Error" ∧
      (if st = 404 then UiEvent.error (buildNotFoundMsg rtype name)
        else UiEvent.error (buildApiErrMsg name reason)) ∈
        (buildPollLoop gets ns name rtype fuel retries status).events := by
  intro fuel
  induction fuel with
  | zero =>
    intro k retries status st reason text _h0 hk
    omega
  | succ n ih =>
    intro k retries status st reason text h0 hk hprefix hgk
    rw [buildPollLoop, h0]
    simp only [Bool.false_eq_true, if_false]
    cases k with
    | zero =>
      rw [Nat.add_zero] at hgk
      rw [hgk]
      simp
    | succ j =>
      have hall0 := hprefix 0 (Nat.succ_pos j)
      rw [Nat.add_zero] at hall0
      cases hg : gets retries with
      | ok o0 =>
        rw [hg] at hall0
        simp only [pollOkNonTerminal, Bool.not_eq_true'] at hall0
        have hshift : ∀ i, i < j → pollOkNonTerminal (gets (retries + 1 + i)) = true := by
          intro i hi
          have := hprefix (i + 1) (by omega)
          rwa [show retries + (i + 1) = retries + 1 + i from by omega] at this
        have hgk2 : gets (retries + 1 + j) = GetResult.apiErr st reason text := by
          rwa [show retries + 1 + j = retries + (j + 1) from by omega]
        obtain ⟨h1, h2, h3⟩ := ih j (retries + 1) (getBuildPhase o0) st reason text hall0 (by omega) hshift hgk2
        simp only [hall0, Bool.false_eq_true, if_false]
        refine ⟨by omega, by simpa using h2, ?_⟩
        simp only [List.mem_cons]
        right
        simpa using h3
      | apiErr st0 reason0 text0 =>
        rw [hg] at hall0
        simp [pollOkNonTerminal] at hall0
      | exn text0 =>
        rw [hg] at hall0
        simp [pollOkNonTerminal] at hall0

/-! Lemmas about the deploy polling loop. -/

theorem deployPollLoop_ops_all_get (gets : Nat → GetResult) (ns name : String) :
    ∀ (fuel retries : Nat) (phase : String),
      ∀ op ∈ (deployPollLoop gets ns name fuel retries phase).ops,
        op = ClusterOp.get ns name := by
  intro fuel
  induction fuel with
  | zero =>
    intro retries phase op hop
    simp [deployPollLoop] at hop
  | succ n ih =>
    intro retries phase op hop
    rw [deployPollLoop] at hop
    cases hterm : isTerminalDeploy phase with
    | true => simp [hterm] at hop
    | false =>
      rw [hterm] at hop
      simp only [Bool.false_eq_true, if_false] at hop
      cases hg : gets retries with
      | ok o =>
        rw [hg] at hop
        simp only at hop
        cases hph : isTerminalDeploy (getDeployPhase o) with
        | true =>
          rw [hph] at hop
          simp at hop
          exact hop
        | false =>
          rw [hph] at hop
          simp only [Bool.false_eq_true, if_false, List.mem_cons] at hop
          rcases hop with h | h
          · exact h
          · exact ih (retries + 1) (getDeployPhase o) op h
      | apiErr st reason text =>
        rw [hg] at hop
        simp only [List.mem_cons] at hop
        rcases hop with h | h
        · exact h
        · exact ih (retries + 1) phase op h
      | exn text =>
        rw [hg] at hop
        simp only [List.mem_cons] at hop
        rcases hop with h | h
        · exact h
        · exact ih (retries + 1) phase op h

theorem deployPollLoop_retries_le (gets : Nat → GetResult) (ns name : String) :
    ∀ (fuel retries : Nat) (phase : String),
      (deployPollLoop gets ns name fuel retries phase).retries ≤ retries + fuel := by
  intro fuel
  induction fuel with
  | zero =>
    intro retries phase
    simp [deployPollLoop]
  | succ n ih =>
    intro retries phase
    rw [deployPollLoop]
    cases hterm : isTerminalDeploy phase with
    | true => simp
    | false =>
      simp only [Bool.false_eq_true, if_false]
      cases hg : gets retries with
      | ok o =>
        cases hph : isTerminalDeploy (getDeployPhase o) with
        | true => simp [hph] <;> omega
        | false =>
          have := ih (retries + 1) (getDeployPhase o)
          simp only [hph, Bool.false_eq_true, if_false] at this ⊢
          simp <;> omega
      | apiErr st reason text =>
        have := ih (retries + 1) phase
        simp <;> omega
      | exn text =>
        have := ih (retries + 1) phase
        simp <;> omega

theorem deployPollLoop_retries_ge (gets : Nat → GetResult) (ns name : String) :
    ∀ (fuel retries : Nat) (phase : String),
      retries ≤ (deployPollLoop gets ns name fuel retries phase).retries := by
  intro fuel
  induction fuel with
  | zero =>
    intro retries phase
    simp [deployPollLoop]
  | succ n ih =>
    intro retries phase
    rw [deployPollLoop]
    cases hterm : isTerminalDeploy phase with
    | true => simp
    | false =>
      simp only [Bool.false_eq_true, if_false]
      cases hg : gets retries with
      | ok o =>
        cases hph : isTerminalDeploy (getDeployPhase o) with
        | true => simp [hph] <;> omega
        | false =>
          have := ih (retries + 1) (getDeployPhase o)
          simp only [hph, Bool.false_eq_true, if_false] at this ⊢
          simp <;> omega
      | apiErr st reason text =>
        have := ih (retries + 1) phase
        simp <;> omega
      | exn text =>
        have := ih (retries + 1) phase
        simp <;> omega

theorem deployPollLoop_pos (gets : Nat → GetResult) (ns name : String)
    (fuel retries : Nat) (phase : String)
    (h : isTerminalDeploy phase = false) (hf : 0 < fuel) :
    retries < (deployPollLoop gets ns name fuel retries phase).retries := by
  cases fuel with
  | zero => omega
  | succ n =>
    rw [deployPollLoop, h]
    simp only [Bool.false_eq_true, if_false]
    cases hg : gets retries with
    | ok o =>
      cases hph : isTerminalDeploy (getDeployPhase o) with
      | true => simp [hph] <;> omega
      | false =>
        have := deployPollLoop_retries_ge gets ns name n (retries + 1) (getDeployPhase o)
        simp only [hph, Bool.false_eq_true, if_false] at this ⊢
        simp <;> omega
    | apiErr st reason text =>
      have := deployPollLoop_retries_ge gets ns name n (retries + 1) phase
      simp <;> omega
    | exn text =>
      have := deployPollLoop_retries_ge gets ns name n (retries + 1) phase
      simp <;> omega

/-! Reduction of trigger_and_monitor_build under a successful
submission, and case analysis of the monitoring part. -/

theorem submissionOk_trigger_eq (env : BuildEnv) (h : submissionOk env) :
    trigger_and_monitor_build env =
      monitorBuildAndDeploy env
        [UiEvent.spinner (submitBuildSpinMsg env.resourceType env.sanitizedName env.buildNamespace),
          UiEvent.success (createSentMsg env.resourceType env.sanitizedName env.buildNamespace),
          UiEvent.spinner (waitBuildSpinMsg env.resourceType env.sanitizedName env.buildNamespace)] := by
  obtain ⟨h1, h2, h3, hbody, hc⟩ := h
  rw [trigger_and_monitor_build]
  rcases hbody with ⟨ha, hsome⟩ | ⟨ht, hsome⟩
  · obtain ⟨b, hb⟩ := Option.isSome_iff_exists.mp hsome
    simp [h1, h2, h3, ha, hb, hc]
  · obtain ⟨b, hb⟩ := Option.isSome_iff_exists.mp hsome
    simp [h1, h2, h3, ht, hb, hc]

theorem monitorBuildAndDeploy_timeout (env : BuildEnv) (pre : List UiEvent)
    (h1 : maxBuildRetries ≤ (buildLoopOf env).retries)
    (h2 : isTerminalBuild (buildLoopOf env).status = false) :
    monitorBuildAndDeploy env pre =
      ⟨PyResult.ret false,
        ClusterOp.create env.buildNamespace :: (buildLoopOf env).ops,
        (pre ++ (buildLoopOf env).events) ++ [UiEvent.error (buildTimeoutMsg env.sanitizedName)],
        (buildLoopOf env).retries, 0, some (buildLoopOf env).status, none⟩ := by
  simp [monitorBuildAndDeploy, h1, h2]

theorem monitorBuildAndDeploy_build_failed (env : BuildEnv) (pre : List UiEvent)
    (h2 : isTerminalBuild (buildLoopOf env).status = true)
    (h3 : (buildLoopOf env).status ≠ "Succeeded") :
    monitorBuildAndDeploy env pre =
      ⟨PyResult.ret false,
        ClusterOp.create env.buildNamespace :: (buildLoopOf env).ops,
        (pre ++ (buildLoopOf env).events) ++
          [UiEvent.error (buildFinishedStatusMsg env.resourceType env.sanitizedName
            env.buildNamespace (buildLoopOf env).status)],
        (buildLoopOf env).retries, 0, some (buildLoopOf env).status, none⟩ := by
  simp [monitorBuildAndDeploy, h2, h3]

theorem monitorBuildAndDeploy_build_succeeded (env : BuildEnv) (pre : List UiEvent)
    (h2 : (buildLoopOf env).status = "Succeeded") :
    (monitorBuildAndDeploy env pre).buildPolls = (buildLoopOf env).retries ∧
    (monitorBuildAndDeploy env pre).deployPolls = (deployLoopOf env).retries ∧
    (monitorBuildAndDeploy env pre).finalBuildStatus = some "Succeeded" ∧
    (monitorBuildAndDeploy env pre).finalDeployPhase = some (deployLoopOf env).phase ∧
    (monitorBuildAndDeploy env pre).ops =
      ClusterOp.create env.buildNamespace ::
        ((buildLoopOf env).ops ++ (deployLoopOf env).ops) ∧
    (monitorBuildAndDeploy env pre).result =
      PyResult.ret (decide ((deployLoopOf env).phase = "Ready")) := by
  by_cases hr : (deployLoopOf env).phase = "Ready"
  · simp [monitorBuildAndDeploy, isTerminalBuild, h2, hr]
  · by_cases hf : (deployLoopOf env).phase = "Failed" ∨ (deployLoopOf env).phase = "Error"
    · simp [monitorBuildAndDeploy, isTerminalBuild, h2, hr, hf]
    · simp [monitorBuildAndDeploy, isTerminalBuild, h2, hr, hf]

theorem buildPollLoop_exit (gets : Nat → GetResult) (ns name rtype : String) :
    ∀ (fuel retries : Nat) (status : String),
      isTerminalBuild (buildPollLoop gets ns name rtype fuel retries status).status = true ∨
      (buildPollLoop gets ns name rtype fuel retries status).retries = retries + fuel := by
  intro fuel
  induction fuel with
  | zero =>
    intro retries status
    right
    simp [buildPollLoop]
  | succ n ih =>
    intro retries status
    rw [buildPollLoop]
    cases hterm : isTerminalBuild status with
    | true =>
      left
      simp [hterm]
    | false =>
      simp only [Bool.false_eq_true, if_false]
      cases hg : gets retries with
      | ok o =>
        cases hph : isTerminalBuild (getBuildPhase o) with
        | true =>
          left
          simp [hph]
        | false =>
          rcases ih (retries + 1) (getBuildPhase o) with h | h
          · left
            simpa [hph] using h
          · right
            simp only [hph, Bool.false_eq_true, if_false]
            omega
      | apiErr st reason text =>
        left
        simp [isTerminalBuild]
      | exn text =>
        left
        simp [isTerminalBuild]

theorem buildLoopOf_retries_le (env : BuildEnv) :
    (buildLoopOf env).retries ≤ maxBuildRetries := by
  have := buildPollLoop_retries_le env.gets env.buildNamespace env.sanitizedName
    env.resourceType maxBuildRetries 0 "Pending"
  simpa [buildLoopOf] using this

theorem deployLoopOf_retries_le (env : BuildEnv) :
    (deployLoopOf env).retries ≤ maxDeploymentRetries := by
  have := deployPollLoop_retries_le (fun i => env.gets ((buildLoopOf env).retries + i))
    env.buildNamespace env.sanitizedName maxDeploymentRetries 0 "Unknown"
  simpa [deployLoopOf] using this

theorem deployLoopOf_retries_pos (env : BuildEnv) :
    0 < (deployLoopOf env).retries := by
  have := deployPollLoop_pos (fun i => env.gets ((buildLoopOf env).retries + i))
    env.buildNamespace env.sanitizedName maxDeploymentRetries 0 "Unknown"
    (by simp [isTerminalDeploy]) (by simp [maxDeploymentRetries])
  simpa [deployLoopOf] using this

theorem monitorBuildAndDeploy_not_succeeded (env : BuildEnv) (pre : List UiEvent)
    (hA : ¬ (maxBuildRetries ≤ (buildLoopOf env).retries ∧
      ¬ isTerminalBuild (buildLoopOf env).status = true))
    (hB : (buildLoopOf env).status ≠ "Succeeded") :
    monitorBuildAndDeploy env pre =
      ⟨PyResult.ret false,
        ClusterOp.create env.buildNamespace :: (buildLoopOf env).ops,
        (pre ++ (buildLoopOf env).events) ++
          [UiEvent.error (buildFinishedStatusMsg env.resourceType env.sanitizedName
            env.buildNamespace (buildLoopOf env).status)],
        (buildLoopOf env).retries, 0, some (buildLoopOf env).status, none⟩ := by
  simp only [monitorBuildAndDeploy]
  rw [if_neg hA, if_neg hB]

theorem monitorBuildAndDeploy_polls_le (env : BuildEnv) (pre : List UiEvent) :
    (monitorBuildAndDeploy env pre).buildPolls ≤ maxBuildRetries ∧
    (monitorBuildAndDeploy env pre).deployPolls ≤ maxDeploymentRetries := by
  by_cases hA : maxBuildRetries ≤ (buildLoopOf env).retries ∧
      ¬ isTerminalBuild (buildLoopOf env).status = true
  · rw [monitorBuildAndDeploy_timeout env pre hA.1 (by simpa using hA.2)]
    exact ⟨buildLoopOf_retries_le env, by simp⟩
  · by_cases hB : (buildLoopOf env).status = "Succeeded"
    · obtain ⟨c1, c2, _, _, _, _⟩ := monitorBuildAndDeploy_build_succeeded env pre hB
      rw [c1, c2]
      exact ⟨buildLoopOf_retries_le env, deployLoopOf_retries_le env⟩
    · rw [monitorBuildAndDeploy_not_succeeded env pre hA hB]
      exact ⟨buildLoopOf_retries_le env, by simp⟩

/-- C1: the deploy-status polling loop runs (at least one deploy poll)
if and only if the build loop ended with build phase exactly Succeeded;
and a terminal Failed or Error build phase first reported at poll
attempt k + 1 stops the build loop at that attempt and the whole
operation returns failure with zero deploy polls. -/
theorem C1_deploy_iff_build_succeeded (env : BuildEnv) (h : submissionOk env) :
    (0 < (trigger_and_monitor_build env).deployPolls ↔
      (trigger_and_monitor_build env).finalBuildStatus = some "Succeeded") ∧
    (∀ (k : Nat) (o : K8sObject), k < maxBuildRetries →
      (∀ i, i < k → pollOkNonTerminal (env.gets i) = true) →
      env.gets k = GetResult.ok o →
      (getBuildPhase o = "Failed" ∨ getBuildPhase o = "Error") →
      (trigger_and_monitor_build env).buildPolls = k + 1 ∧
      (trigger_and_monitor_build env).result = PyResult.ret false ∧
      (trigger_and_monitor_build env).deployPolls = 0) := by
  rw [submissionOk_trigger_eq env h]
  constructor
  · by_cases hB : (buildLoopOf env).status = "Succeeded"
    · obtain ⟨_, c2, c3, _, _, _⟩ := monitorBuildAndDeploy_build_succeeded env _ hB
      rw [c2, c3]
      simp [deployLoopOf_retries_pos env]
    · by_cases hA : maxBuildRetries ≤ (buildLoopOf env).retries ∧
          ¬ isTerminalBuild (buildLoopOf env).status = true
      · rw [monitorBuildAndDeploy_timeout env _ hA.1 (by simpa using hA.2)]
        simpa using hB
      · rw [monitorBuildAndDeploy_not_succeeded env _ hA hB]
        simpa using hB
  · intro k o hk hpre hgk hfail
    have hstop := buildPollLoop_stops_terminal env.gets env.buildNamespace
      env.sanitizedName env.resourceType maxBuildRetries k 0 "Pending" o
      (by simp [isTerminalBuild]) hk (by simpa using hpre) (by simpa using hgk)
      (by rcases hfail with hf | hf <;> simp [isTerminalBuild, hf])
    rw [show buildPollLoop env.gets env.buildNamespace env.sanitizedName
      env.resourceType maxBuildRetries 0 "Pending" = buildLoopOf env from rfl] at hstop
    obtain ⟨hr, hs⟩ := hstop
    have hterm : isTerminalBuild (buildLoopOf env).status = true := by
      rcases hfail with hf | hf <;> rw [hs, hf] <;> simp [isTerminalBuild]
    have hB : (buildLoopOf env).status ≠ "Succeeded" := by
      rcases hfail with hf | hf <;> rw [hs, hf] <;> simp
    rw [monitorBuildAndDeploy_not_succeeded env _ (by simp [hterm]) hB]
    refine ⟨by simpa using hr, rfl, rfl⟩

/-- C4: when every status read during build polling reports a
non-terminal build phase, the build loop issues exactly
maxBuildRetries = 120 status reads (get calls), reports the timeout to
the observer, and the operation returns failure without deploy polls. -/
theorem C4_timeout_exactly_maxBuildRetries_polls (env : BuildEnv) (h : submissionOk env)
    (hall : ∀ i, i < maxBuildRetries → pollOkNonTerminal (env.gets i) = true) :
    (trigger_and_monitor_build env).buildPolls = maxBuildRetries ∧
    ((trigger_and_monitor_build env).ops.filter isGet).length = maxBuildRetries ∧
    (trigger_and_monitor_build env).deployPolls = 0 ∧
    (trigger_and_monitor_build env).result = PyResult.ret false ∧
    UiEvent.error (buildTimeoutMsg env.sanitizedName) ∈
      (trigger_and_monitor_build env).events := by
  rw [submissionOk_trigger_eq env h]
  have hrun := buildPollLoop_all_nonterminal env.gets env.buildNamespace
    env.sanitizedName env.resourceType maxBuildRetries 0 "Pending"
    (by simp [isTerminalBuild]) (by simpa using hall)
  rw [show buildPollLoop env.gets env.buildNamespace env.sanitizedName
    env.resourceType maxBuildRetries 0 "Pending" = buildLoopOf env from rfl] at hrun
  obtain ⟨hr, hs, hlen⟩ := hrun
  rw [monitorBuildAndDeploy_timeout env _ (by omega) hs]
  refine ⟨by simpa using hr, ?_, rfl, rfl, by simp⟩
  have hops : ∀ op ∈ (buildLoopOf env).ops,
      op = ClusterOp.get env.buildNamespace env.sanitizedName := by
    intro op hop
    exact buildPollLoop_ops_all_get env.gets env.buildNamespace env.sanitizedName
      env.resourceType maxBuildRetries 0 "Pending" op hop
  have hfilter : (buildLoopOf env).ops.filter isGet = (buildLoopOf env).ops := by
    apply List.filter_eq_self.mpr
    intro op hop
    rw [hops op hop]
    rfl
  simp only [List.filter_cons]
  rw [show isGet (ClusterOp.create env.buildNamespace) = false from rfl]
  simp only [Bool.false_eq_true, if_false]
  rw [hfilter, hlen]

/-- Witness for C1: build phase sequence Pending, Failed stops the
build loop at attempt 2, returns failure and never polls deploy
status. -/
theorem C1_witness :
    (0 < (trigger_and_monitor_build buildFailEnv).deployPolls ↔
      (trigger_and_monitor_build buildFailEnv).finalBuildStatus = some "Succeeded") ∧
    (trigger_and_monitor_build buildFailEnv).buildPolls = 2 ∧
    (trigger_and_monitor_build buildFailEnv).result = PyResult.ret false ∧
    (trigger_and_monitor_build buildFailEnv).deployPolls = 0 := by
  have h := C1_deploy_iff_build_succeeded buildFailEnv (by decide)
  refine ⟨h.1, ?_⟩
  have h2 := h.2 1 (mkObj "Failed" "Unknown") (by decide)
    (by intro i hi; have hz : i = 0 := by omega
        subst hz; decide)
    (by decide) (by left; decide)
  simpa using h2

/-- C2 counterexample: a transient 500 ApiException on the first build
poll is not swallowed into the next attempt: the build loop stops after
a single poll with status Error and the operation fails, even though
the very next read would have reported Succeeded. -/
theorem C2_counterexample :
    (trigger_and_monitor_build transientErrEnv).buildPolls = 1 ∧
    ¬ 2 ≤ (trigger_and_monitor_build transientErrEnv).buildPolls ∧
    (trigger_and_monitor_build transientErrEnv).finalBuildStatus = some "Error" ∧
    (trigger_and_monitor_build transientErrEnv).result = PyResult.ret false ∧
    (trigger_and_monitor_build transientErrEnv).deployPolls = 0 ∧
    ((trigger_and_monitor_build transientErrEnv).ops.filter isGet).length = 1 := by
  decide

/-- C2 (amended): in the build polling loop a transient (non-404)
ApiException is reported to the observer and aborts the phase at that
very attempt — the status is set to Error, the operation returns
failure, and no further build or deploy poll happens.  (The
swallow-and-continue discipline holds only in the deploy loops.) -/
theorem C2_amended_transient_error_aborts_build (env : BuildEnv) (h : submissionOk env)
    (k st : Nat) (reason text : String) (hk : k < maxBuildRetries)
    (hpre : ∀ i, i < k → pollOkNonTerminal (env.gets i) = true)
    (hgk : env.gets k = GetResult.apiErr st reason text)
    (h404 : st ≠ 404) :
    (trigger_and_monitor_build env).buildPolls = k + 1 ∧
    (trigger_and_monitor_build env).finalBuildStatus = some "Error" ∧
    (trigger_and_monitor_build env).result = PyResult.ret false ∧
    (trigger_and_monitor_build env).deployPolls = 0 ∧
    UiEvent.error (buildApiErrMsg env.sanitizedName reason) ∈
      (trigger_and_monitor_build env).events := by
  rw [submissionOk_trigger_eq env h]
  have hstop := buildPollLoop_stops_apiErr env.gets env.buildNamespace
    env.sanitizedName env.resourceType maxBuildRetries k 0 "Pending" st reason text
    (by simp [isTerminalBuild]) hk (by simpa using hpre) (by simpa using hgk)
  rw [show buildPollLoop env.gets env.buildNamespace env.sanitizedName
    env.resourceType maxBuildRetries 0 "Pending" = buildLoopOf env from rfl] at hstop
  obtain ⟨hr, hs, hev⟩ := hstop
  have hterm : isTerminalBuild (buildLoopOf env).status = true := by
    rw [hs]; simp [isTerminalBuild]
  have hB : (buildLoopOf env).status ≠ "Succeeded" := by rw [hs]; simp
  rw [monitorBuildAndDeploy_not_succeeded env _ (by simp [hterm]) hB]
  rw [if_neg h404] at hev
  refine ⟨by simpa using hr, by rw [hs], rfl, rfl, by simp [hev]⟩

/-- Witness for the amended C2 at the concrete 500-error environment. -/
theorem C2_amended_witness :
    (trigger_and_monitor_build transientErrEnv).buildPolls = 0 + 1 ∧
    (trigger_and_monitor_build transientErrEnv).finalBuildStatus = some "Error" ∧
    (trigger_and_monitor_build transientErrEnv).result = PyResult.ret false ∧
    (trigger_and_monitor_build transientErrEnv).deployPolls = 0 ∧
    UiEvent.error (buildApiErrMsg transientErrEnv.sanitizedName "Internal Server Error") ∈
      (trigger_and_monitor_build transientErrEnv).events :=
  C2_amended_transient_error_aborts_build transientErrEnv (by decide)
    0 500 "Internal Server Error" "(500) Internal Server Error"
    (by decide) (by intro i hi; omega) (by decide) (by decide)

/-- C3 counterexample: in the deploy polling loop of
trigger_and_monitor_deployment_from_image, a 404 on the first poll does
not terminate the phase: it is logged as a generic warning, counted as
one attempt, and polling continues — here the second poll reports Ready
and the whole call returns success after 2 deploy polls. -/
theorem C3_counterexample :
    (trigger_and_monitor_deployment_from_image imageDeployEnv).result = PyResult.ret true ∧
    (trigger_and_monitor_deployment_from_image imageDeployEnv).deployPolls = 2 ∧
    UiEvent.warning (deployErrMsg "(404) Not Found") ∈
      (trigger_and_monitor_deployment_from_image imageDeployEnv).events := by
  decide

/-- C3 (amended): in the build polling loop of trigger_and_monitor_build
a 404 on any poll attempt terminates the build phase immediately,
regardless of remaining budget: a distinct not-found message goes to
the observer, the status becomes Error and the operation fails with no
deploy polls.  (In the deploy polling loops a 404 is caught by the
generic handler and merely consumes one attempt.) -/
theorem C3_amended_build_loop_404_aborts (env : BuildEnv) (h : submissionOk env)
    (k : Nat) (reason text : String) (hk : k < maxBuildRetries)
    (hpre : ∀ i, i < k → pollOkNonTerminal (env.gets i) = true)
    (hgk : env.gets k = GetResult.apiErr 404 reason text) :
    (trigger_and_monitor_build env).buildPolls = k + 1 ∧
    (trigger_and_monitor_build env).finalBuildStatus = some "Error" ∧
    (trigger_and_monitor_build env).result = PyResult.ret false ∧
    (trigger_and_monitor_build env).deployPolls = 0 ∧
    UiEvent.error (buildNotFoundMsg env.resourceType env.sanitizedName) ∈
      (trigger_and_monitor_build env).events := by
  rw [submissionOk_trigger_eq env h]
  have hstop := buildPollLoop_stops_apiErr env.gets env.buildNamespace
    env.sanitizedName env.resourceType maxBuildRetries k 0 "Pending" 404 reason text
    (by simp [isTerminalBuild]) hk (by simpa using hpre) (by simpa using hgk)
  rw [show buildPollLoop env.gets env.buildNamespace env.sanitizedName
    env.resourceType maxBuildRetries 0 "Pending" = buildLoopOf env from rfl] at hstop
  obtain ⟨hr, hs, hev⟩ := hstop
  have hterm : isTerminalBuild (buildLoopOf env).status = true := by
    rw [hs]; simp [isTerminalBuild]
  have hB : (buildLoopOf env).status ≠ "Succeeded" := by rw [hs]; simp
  rw [monitorBuildAndDeploy_not_succeeded env _ (by simp [hterm]) hB]
  rw [if_pos rfl] at hev
  refine ⟨by simpa using hr, by rw [hs], rfl, rfl, by simp [hev]⟩

/-- Witness for the amended C3 at the concrete 404 environment. -/
theorem C3_amended_witness :
    (trigger_and_monitor_build notFoundEnv).buildPolls = 0 + 1 ∧
    (trigger_and_monitor_build notFoundEnv).finalBuildStatus = some "Error" ∧
    (trigger_and_monitor_build notFoundEnv).result = PyResult.ret false ∧
    (trigger_and_monitor_build notFoundEnv).deployPolls = 0 ∧
    UiEvent.error (buildNotFoundMsg notFoundEnv.resourceType notFoundEnv.sanitizedName) ∈
      (trigger_and_monitor_build notFoundEnv).events :=
  C3_amended_build_loop_404_aborts notFoundEnv (by decide)
    0 "Not Found" "(404) Not Found"
    (by decide) (by intro i hi; omega) (by decide)

/-- C5 counterexample: with the build phase permanently Running, the
call performs the full 120 build polls and returns an ordinary failure.
The embedding takes as input every value the source reads during the
loop (clients, names, constructed bodies, create result and the poll
answer stream); none of them is a cancellation signal and no execution
can produce a Cancelled outcome, so a mid-loop cancellation request
cannot terminate polling within one poll interval. -/
theorem C5_counterexample :
    (trigger_and_monitor_build baseEnv).buildPolls = 120 ∧
    (trigger_and_monitor_build baseEnv).result = PyResult.ret false ∧
    (trigger_and_monitor_build baseEnv).deployPolls = 0 := by
  decide

/-- C5 (amended): the polling loops consult no cancellation signal and
have no Cancelled outcome; every execution is bounded by the attempt
budget — at most 120 build polls and at most 120 deploy polls — and
ends with an ordinary returned result. -/
theorem C5_amended_polls_bounded (env : BuildEnv) (denv : DeployEnv) :
    (trigger_and_monitor_build env).buildPolls ≤ maxBuildRetries ∧
    (trigger_and_monitor_build env).deployPolls ≤ maxDeploymentRetries ∧
    (trigger_and_monitor_deployment_from_image denv).buildPolls = 0 ∧
    (trigger_and_monitor_deployment_from_image denv).deployPolls ≤ maxDeploymentRetries := by
  have H1 : (trigger_and_monitor_build env).buildPolls ≤ maxBuildRetries ∧
      (trigger_and_monitor_build env).deployPolls ≤ maxDeploymentRetries := by
    simp only [trigger_and_monitor_build]
    repeat' split
    all_goals
      first
        | exact monitorBuildAndDeploy_polls_le env _
        | exact ⟨Nat.zero_le _, Nat.zero_le _⟩
  have H2 : (trigger_and_monitor_deployment_from_image denv).buildPolls = 0 ∧
      (trigger_and_monitor_deployment_from_image denv).deployPolls ≤ maxDeploymentRetries := by
    have hle := deployPollLoop_retries_le denv.gets denv.deploymentNamespace
      denv.sanitizedName maxDeploymentRetries 0 "Unknown"
    simp only [trigger_and_monitor_deployment_from_image]
    repeat' split
    all_goals
      first
        | exact ⟨rfl, by simpa using hle⟩
        | exact ⟨rfl, Nat.zero_le _⟩
  exact ⟨H1.1, H1.2, H2.1, H2.2⟩

/-- C6: the end-to-end scenario with build phases Pending, Running,
Running, Succeeded and deploy phases Pending, Ready returns success
after exactly 4 build polls followed by exactly 2 deploy polls (6 get
calls after the single create). -/
theorem C6_scenario_four_build_two_deploy :
    (trigger_and_monitor_build scenarioEnv).result = PyResult.ret true ∧
    (trigger_and_monitor_build scenarioEnv).buildPolls = 4 ∧
    (trigger_and_monitor_build scenarioEnv).deployPolls = 2 ∧
    ((trigger_and_monitor_build scenarioEnv).ops.filter isGet).length = 6 ∧
    (trigger_and_monitor_build scenarioEnv).finalBuildStatus = some "Succeeded" ∧
    (trigger_and_monitor_build scenarioEnv).finalDeployPhase = some "Ready" := by
  decide

theorem filter_isCreate_create_cons (ns : String) (l : List ClusterOp)
    (hl : ∀ op ∈ l, isGet op = true) :
    ((ClusterOp.create ns :: l).filter isCreate).length = 1 := by
  have hnil : l.filter isCreate = [] := by
    rw [List.filter_eq_nil]
    intro op hop
    have := hl op hop
    cases op <;> simp_all [isGet, isCreate]
  simp [List.filter_cons, hnil, isCreate]

/-- C7: submission failures are immediate, distinct and poll-free:
missing CustomObjectsApi or CoreV1Api clients, a body-construction
failure, and an already-existing resource (HTTP 409 on create — no
implicit overwrite) each return failure at once with their own
observer error message and zero status polls; only the 409 case has
issued the single create call. -/
theorem C7_submission_failures_immediate :
    (∀ env : BuildEnv, env.hasCustomObjApi = false →
      trigger_and_monitor_build env =
        ⟨PyResult.ret false, [], [UiEvent.error msgNoCustomObjApi], 0, 0, none, none⟩) ∧
    (∀ env : BuildEnv, env.hasCustomObjApi = true → env.hasCoreV1Api = false →
      trigger_and_monitor_build env =
        ⟨PyResult.ret false, [], [UiEvent.error msgNoCoreV1Api], 0, 0, none, none⟩) ∧
    (∀ env : BuildEnv, env.hasCustomObjApi = true → env.hasCoreV1Api = true →
      env.sanitizedName ≠ "" →
      ((pyLower env.resourceType = "agent" ∧ env.agentBody = none) ∨
        (pyLower env.resourceType = "tool" ∧ env.toolBody = none)) →
      trigger_and_monitor_build env =
        ⟨PyResult.ret false, [],
          [UiEvent.error (constructBuildBodyFailMsg env.sanitizedName)], 0, 0, none, none⟩) ∧
    (∀ (env : BuildEnv) (reason text : String), env.hasCustomObjApi = true →
      env.hasCoreV1Api = true → env.sanitizedName ≠ "" →
      ((pyLower env.resourceType = "agent" ∧ env.agentBody.isSome) ∨
        (pyLower env.resourceType = "tool" ∧ env.toolBody.isSome)) →
      env.createResult = CreateResult.apiErr 409 reason text →
      trigger_and_monitor_build env =
        ⟨PyResult.ret false, [ClusterOp.create env.buildNamespace],
          [UiEvent.spinner (submitBuildSpinMsg env.resourceType env.sanitizedName env.buildNamespace),
            UiEvent.error (alreadyExistsMsg (resourceDescOf env.resourceType env.sanitizedName))],
          0, 0, none, none⟩) := by
  refine ⟨?_, ?_, ?_, ?_⟩
  · intro env h1
    rw [trigger_and_monitor_build]
    simp [h1]
  · intro env h1 h2
    rw [trigger_and_monitor_build]
    simp [h1, h2]
  · intro env h1 h2 h3 hbody
    rw [trigger_and_monitor_build]
    rcases hbody with ⟨ha, hnone⟩ | ⟨ht, hnone⟩
    · simp [h1, h2, h3, ha, hnone]
    · simp [h1, h2, h3, ht, hnone]
  · intro env reason text h1 h2 h3 hbody hc
    rw [trigger_and_monitor_build]
    rcases hbody with ⟨ha, hsome⟩ | ⟨ht, hsome⟩
    · obtain ⟨b, hb⟩ := Option.isSome_iff_exists.mp hsome
      simp [h1, h2, h3, ha, hb, hc, handleKubeApiException]
    · obtain ⟨b, hb⟩ := Option.isSome_iff_exists.mp hsome
      simp [h1, h2, h3, ht, hb, hc, handleKubeApiException]

/-- Witness for C7 at four concrete environments, one per failure
kind. -/
theorem C7_witness :
    trigger_and_monitor_build noCustomApiEnv =
      ⟨PyResult.ret false, [], [UiEvent.error msgNoCustomObjApi], 0, 0, none, none⟩ ∧
    trigger_and_monitor_build noCoreApiEnv =
      ⟨PyResult.ret false, [], [UiEvent.error msgNoCoreV1Api], 0, 0, none, none⟩ ∧
    trigger_and_monitor_build noBodyEnv =
      ⟨PyResult.ret false, [],
        [UiEvent.error (constructBuildBodyFailMsg noBodyEnv.sanitizedName)], 0, 0, none, none⟩ ∧
    trigger_and_monitor_build conflictEnv =
      ⟨PyResult.ret false, [ClusterOp.create conflictEnv.buildNamespace],
        [UiEvent.spinner (submitBuildSpinMsg conflictEnv.resourceType
            conflictEnv.sanitizedName conflictEnv.buildNamespace),
          UiEvent.error (alreadyExistsMsg (resourceDescOf conflictEnv.resourceType
            conflictEnv.sanitizedName))],
        0, 0, none, none⟩ :=
  ⟨C7_submission_failures_immediate.1 noCustomApiEnv rfl,
    C7_submission_failures_immediate.2.1 noCoreApiEnv rfl rfl,
    C7_submission_failures_immediate.2.2.1 noBodyEnv rfl rfl (by decide)
      (Or.inr ⟨by decide, rfl⟩),
    C7_submission_failures_immediate.2.2.2 conflictEnv "Conflict" "(409) Conflict"
      rfl rfl (by decide) (Or.inr ⟨by decide, by decide⟩) rfl⟩

/-- C8: after a successful submission the cluster trace is exactly one
create followed by get operations only — the orchestrator never
updates, patches or deletes the resource. -/
theorem C8_one_create_then_only_gets (env : BuildEnv) (h : submissionOk env) :
    ∃ rest, (trigger_and_monitor_build env).ops =
        ClusterOp.create env.buildNamespace :: rest ∧
      (∀ op ∈ rest, isGet op = true) ∧
      ((trigger_and_monitor_build env).ops.filter isCreate).length = 1 := by
  rw [submissionOk_trigger_eq env h]
  have hbl : ∀ op ∈ (buildLoopOf env).ops,
      op = ClusterOp.get env.buildNamespace env.sanitizedName := fun op hop =>
    buildPollLoop_ops_all_get env.gets env.buildNamespace env.sanitizedName
      env.resourceType maxBuildRetries 0 "Pending" op hop
  have hdl : ∀ op ∈ (deployLoopOf env).ops,
      op = ClusterOp.get env.buildNamespace env.sanitizedName := fun op hop =>
    deployPollLoop_ops_all_get (fun i => env.gets ((buildLoopOf env).retries + i))
      env.buildNamespace env.sanitizedName maxDeploymentRetries 0 "Unknown" op hop
  by_cases hA : maxBuildRetries ≤ (buildLoopOf env).retries ∧
      ¬ isTerminalBuild (buildLoopOf env).status = true
  · rw [monitorBuildAndDeploy_timeout env _ hA.1 (by simpa using hA.2)]
    refine ⟨(buildLoopOf env).ops, rfl,
      fun op hop => by rw [hbl op hop]; rfl, ?_⟩
    exact filter_isCreate_create_cons env.buildNamespace (buildLoopOf env).ops
      (fun op hop => by rw [hbl op hop]; rfl)
  · by_cases hB : (buildLoopOf env).status = "Succeeded"
    · obtain ⟨_, _, _, _, c5, _⟩ := monitorBuildAndDeploy_build_succeeded env _ hB
      rw [c5]
      have hall : ∀ op ∈ (buildLoopOf env).ops ++ (deployLoopOf env).ops,
          isGet op = true := by
        intro op hop
        rcases List.mem_append.mp hop with hop | hop
        · rw [hbl op hop]; rfl
        · rw [hdl op hop]; rfl
      exact ⟨(buildLoopOf env).ops ++ (deployLoopOf env).ops, rfl, hall,
        filter_isCreate_create_cons env.buildNamespace _ hall⟩
    · rw [monitorBuildAndDeploy_not_succeeded env _ hA hB]
      refine ⟨(buildLoopOf env).ops, rfl,
        fun op hop => by rw [hbl op hop]; rfl, ?_⟩
      exact filter_isCreate_create_cons env.buildNamespace (buildLoopOf env).ops
        (fun op hop => by rw [hbl op hop]; rfl)

/-- Witness for C8 at the end-to-end scenario environment. -/
theorem C8_witness :
    ∃ rest, (trigger_and_monitor_build scenarioEnv).ops =
        ClusterOp.create scenarioEnv.buildNamespace :: rest ∧
      (∀ op ∈ rest, isGet op = true) ∧
      ((trigger_and_monitor_build scenarioEnv).ops.filter isCreate).length = 1 :=
  C8_one_create_then_only_gets scenarioEnv (by decide)

/-- C9: with both clients supplied, a non-empty sanitized name and a
resource type that is neither agent nor tool, trigger_and_monitor_build
raises an unhandled NameError (the local build_cr_body is read without
ever being assigned) instead of returning False; no cluster call and no
observer message is produced. -/
theorem C9_other_type_raises_nameError (env : BuildEnv)
    (h1 : env.hasCustomObjApi = true) (h2 : env.hasCoreV1Api = true)
    (h3 : env.sanitizedName ≠ "")
    (h4 : pyLower env.resourceType ≠ "agent")
    (h5 : pyLower env.resourceType ≠ "tool") :
    trigger_and_monitor_build env =
      ⟨PyResult.nameError, [], [], 0, 0, none, none⟩ := by
  rw [trigger_and_monitor_build]
  simp [h1, h2, h3, h4, h5]

/-- Witness for C9: resource type Operator. -/
theorem C9_witness :
    trigger_and_monitor_build operatorEnv =
      ⟨PyResult.nameError, [], [], 0, 0, none, none⟩ :=
  C9_other_type_raises_nameError operatorEnv rfl rfl (by decide) (by decide) (by decide)

/-! Lemmas about the string machinery of parse_image_url. -/

theorem intercalateChar_splitAux (c : Char) :
    ∀ l : List Char,
      intercalateChar c ((splitOnCharAux c l).1 :: (splitOnCharAux c l).2) = l := by
  intro l
  induction l with
  | nil => rfl
  | cons a tl ih =>
    by_cases hac : a = c
    · subst hac
      simp only [splitOnCharAux, if_true]
      rw [intercalateChar]
      simpa using ih
    · simp only [splitOnCharAux, hac, if_false]
      cases hsplit : (splitOnCharAux c tl).2 with
      | nil =>
        rw [hsplit] at ih
        simp only [intercalateChar] at ih ⊢
        simpa using ih
      | cons x xs =>
        rw [hsplit] at ih
        simp only [intercalateChar] at ih
        simp only [intercalateChar]
        rw [List.cons_append, ih]

theorem intercalateChar_splitOnChar (c : Char) (l : List Char) :
    intercalateChar c (splitOnChar c l) = l :=
  intercalateChar_splitAux c l

theorem intercalateChar_append_single (c : Char) :
    ∀ (ss : List (List Char)) (t : List Char), ss ≠ [] →
      intercalateChar c (ss ++ [t]) = intercalateChar c ss ++ c :: t := by
  intro ss
  induction ss with
  | nil => intro t h; exact absurd rfl h
  | cons s rest ih =>
    intro t _h
    cases rest with
    | nil => rfl
    | cons s2 rest2 =>
      have := ih t (by simp)
      simp only [List.cons_append] at this ⊢
      rw [intercalateChar, this, intercalateChar]
      simp [List.append_assoc]

theorem dropWhile_ne_of_mem (c : Char) :
    ∀ l : List Char, c ∈ l →
      ∃ t, l.dropWhile (fun a => a ≠ c) = c :: t := by
  intro l
  induction l with
  | nil =>
    intro h
    simp at h
  | cons a tl ih =>
    intro h
    by_cases hac : a = c
    · subst hac
      exact ⟨tl, by simp [List.dropWhile_cons]⟩
    · have hmem : c ∈ tl := by
        rcases List.mem_cons.mp h with h | h
        · exact absurd h.symm hac
        · exact h
      obtain ⟨t, ht⟩ := ih hmem
      refine ⟨t, ?_⟩
      rw [List.dropWhile_cons, if_pos (show decide (a ≠ c) = true by simpa using hac), ht]

theorem rsplitOnce_append (c : Char) (l : List Char) (h : c ∈ l) :
    (rsplitOnce c l).1 ++ c :: (rsplitOnce c l).2 = l := by
  obtain ⟨t, ht⟩ := dropWhile_ne_of_mem c l.reverse (by simpa using h)
  have hsplit := List.takeWhile_append_dropWhile (fun a => a ≠ c) l.reverse
  rw [ht] at hsplit
  simp only [rsplitOnce, ht]
  have hl : l = (l.reverse.takeWhile (fun a => a ≠ c) ++ c :: t).reverse := by
    rw [hsplit, List.reverse_reverse]
  conv_rhs => rw [hl]
  simp [List.reverse_append]

theorem intercalateChar_dropLast_getLastD (c : Char) (parts : List (List Char))
    (h : 2 ≤ parts.length) :
    intercalateChar c parts.dropLast ++ c :: parts.getLastD [] =
      intercalateChar c parts := by
  have hne : parts ≠ [] := by
    intro he
    rw [he] at h
    simp at h
  have hlast : parts.getLastD [] = parts.getLast hne := by
    rw [List.getLastD_eq_getLast?, List.getLast?_eq_getLast parts hne]
    rfl
  have hdrop : parts.dropLast ≠ [] := by
    intro he
    have := congrArg List.length (List.dropLast_append_getLast hne)
    rw [he] at this
    simp at this
    omega
  rw [hlast]
  have := intercalateChar_append_single c parts.dropLast (parts.getLast hne) hdrop
  rw [← this, List.dropLast_append_getLast hne]

/-- C10 (amended): parse_image_url raises ValueError exactly when the
input has no colon, or the portion before the last colon stripped of
leading and trailing slashes has fewer than two slash-separated
segments; and whenever it succeeds and that portion has no leading or
trailing slash (stripping is the identity on it), the concatenation
repo ++ "/" ++ image ++ ":" ++ tag reproduces the input exactly. -/
theorem C10_amended_parse_image_url (url : List Char) :
    ((∃ e, parse_image_url url = Except.error e) ↔
      (¬ ':' ∈ url ∨
        (splitOnChar '/' (pyStrip '/' (rsplitOnce ':' url).1)).length < 2)) ∧
    (∀ repo image tag : List Char,
      pyStrip '/' (rsplitOnce ':' url).1 = (rsplitOnce ':' url).1 →
      parse_image_url url = Except.ok (repo, image, tag) →
      repo ++ '/' :: image ++ ':' :: tag = url) := by
  constructor
  · unfold parse_image_url
    by_cases hc : ':' ∈ url
    · rw [if_pos hc]
      by_cases hlen :
          (splitOnChar '/' (pyStrip '/' (rsplitOnce ':' url).1)).length < 2
      · simp [hlen, hc]
      · simp [hlen, hc]
    · rw [if_neg hc]
      simp [hc]
  · intro repo image tag hstrip hok
    unfold parse_image_url at hok
    by_cases hc : ':' ∈ url
    · rw [if_pos hc] at hok
      by_cases hlen :
          (splitOnChar '/' (pyStrip '/' (rsplitOnce ':' url).1)).length < 2
      · rw [if_pos hlen] at hok
        exact absurd hok (by simp)
      · rw [if_neg hlen] at hok
        simp only [Except.ok.injEq, Prod.mk.injEq] at hok
        obtain ⟨h1, h2, h3⟩ := hok
        subst h1
        subst h2
        subst h3
        have hjoin := intercalateChar_dropLast_getLastD '/'
          (splitOnChar '/' (pyStrip '/' (rsplitOnce ':' url).1)) (by omega)
        have hround := intercalateChar_splitOnChar '/'
          (pyStrip '/' (rsplitOnce ':' url).1)
        have hbase := rsplitOnce_append ':' url hc
        calc intercalateChar '/'
              (splitOnChar '/' (pyStrip '/' (rsplitOnce ':' url).1)).dropLast ++
              '/' :: (splitOnChar '/' (pyStrip '/' (rsplitOnce ':' url).1)).getLastD [] ++
              ':' :: (rsplitOnce ':' url).2
            = (intercalateChar '/'
                (splitOnChar '/' (pyStrip '/' (rsplitOnce ':' url).1)).dropLast ++
                '/' :: (splitOnChar '/' (pyStrip '/' (rsplitOnce ':' url).1)).getLastD []) ++
                ':' :: (rsplitOnce ':' url).2 := by
              simp [List.append_assoc]
          _ = intercalateChar '/' (splitOnChar '/' (pyStrip '/' (rsplitOnce ':' url).1)) ++
                ':' :: (rsplitOnce ':' url).2 := by rw [hjoin]
          _ = pyStrip '/' (rsplitOnce ':' url).1 ++ ':' :: (rsplitOnce ':' url).2 := by
              rw [hround]
          _ = (rsplitOnce ':' url).1 ++ ':' :: (rsplitOnce ':' url).2 := by rw [hstrip]
          _ = url := hbase
    · rw [if_neg hc] at hok
      exact absurd hok (by simp)

/-- Witness for the amended C10: the registry reference
quay.io/org/img:v1 parses to (quay.io/org, img, v1) and recombines to
the original string. -/
theorem C10_amended_witness :
    "quay.io/org".data ++ '/' :: "img".data ++ ':' :: "v1".data =
      "quay.io/org/img:v1".data :=
  (C10_amended_parse_image_url "quay.io/org/img:v1".data).2
    "quay.io/org".data "img".data "v1".data (by decide) rfl

/-- C10 counterexample: the input a/b/:t has no leading or trailing
slash, contains a colon, and parses successfully to (a, b, t); yet
repo ++ "/" ++ image ++ ":" ++ tag is a/b:t, not the original input —
the trailing slash of the portion before the colon is stripped and
lost, so the claimed round trip fails. -/
theorem C10_counterexample :
    parse_image_url "a/b/:t".data = Except.ok ("a".data, "b".data, "t".data) ∧
    "a/b/:t".data.head? ≠ some '/' ∧
    "a/b/:t".data.getLast? ≠ some '/' ∧
    ("a".data ++ '/' :: "b".data ++ ':' :: "t".data) ≠ "a/b/:t".data :=
  ⟨rfl, by decide, by decide, by decide⟩

/-- Witness for C4 at the permanently-Running environment. -/
theorem C4_witness :
    (trigger_and_monitor_build baseEnv).buildPolls = maxBuildRetries ∧
    ((trigger_and_monitor_build baseEnv).ops.filter isGet).length = maxBuildRetries ∧
    (trigger_and_monitor_build baseEnv).deployPolls = 0 ∧
    (trigger_and_monitor_build baseEnv).result = PyResult.ret false ∧
    UiEvent.error (buildTimeoutMsg baseEnv.sanitizedName) ∈
      (trigger_and_monitor_build baseEnv).events :=
  C4_timeout_exactly_maxBuildRetries_polls baseEnv (by decide)
    (by intro i hi; rfl)

end Kagenti
